import Mathlib

/-
Verification of the gesture dispatcher, reset-sequence detector and
feedback subsystem of the esp-homekit button firmware examples.

The definitions below are a shallow embedding of the C sources:
  - examples/JP2Button/main.c   (namespace JP2Button)
  - examples/JPmbutton/utils.c  (namespace JPmbutton)
Side-effecting C functions are embedded as pure functions that return the
list of observable effects they perform, in program order; the static
counter of buttonCallback and the static task handle of
indicateStationMode are threaded explicitly as state.
-/

namespace JP2Button

/-- Classified button gesture, as delivered by the external classifier
(the button_event_t values dispatched on in buttonCallback of
examples/JP2Button/main.c; the constructor other covers every value not
matched by a dedicated branch, carrying the raw event code). -/
inductive ButtonEvent where
  | single_press
  | double_press
  | long_press
  | tripple_press
  | other (code : Nat)
deriving DecidableEq, Repr

/-- Observable effects performed by the firmware code, recorded in program
order. setCount models a write to the static resetSequenceCount variable;
notify models homekit_characteristic_notify on the characteristic of the
given button channel; spawnResetTask models the xTaskCreate of
resetConfigTask performed by resetConfig; taskDeleteSelf models the final
vTaskDelete of a task on itself. -/
inductive Effect where
  | print (msg : String)
  | setCount (n : Nat)
  | notify (channel : Nat) (value : Nat)
  | setLED (isOn : Bool)
  | delay (ms : Nat)
  | wifiConfigReset
  | homekitServerReset
  | systemRestart
  | spawnResetTask
  | taskDeleteSelf
deriving DecidableEq, Repr

/-- ResetSequenceThreshold from examples/JP2Button/main.c line 96:
how many double-presses trigger a reset. -/
def ResetSequenceThreshold : Nat := 2

/-- blinkIt from examples/JP2Button/main.c lines 155-162: cycles
iterations of LED on, delay, LED off, delay. The C parameter cycles is a
uint8_t loop bound, so the loop body runs exactly cycles times. -/
def blinkIt : Nat → Nat → List Effect
  | 0, _ => []
  | Nat.succ n, d =>
      [Effect.setLED true, Effect.delay d, Effect.setLED false, Effect.delay d]
        ++ blinkIt n d

/-- resetConfigTask from examples/JP2Button/main.c lines 204-219: flash
the LED, reset the WiFi configuration, reset the HomeKit server, restart
the system, then delete the running task. -/
def resetConfigTask : List Effect :=
  blinkIt 5 100 ++
  [Effect.print "Resetting Wifi Config", Effect.wifiConfigReset, Effect.delay 1000,
   Effect.print "Resetting HomeKit Config", Effect.homekitServerReset, Effect.delay 1000,
   Effect.print "Restarting", Effect.systemRestart, Effect.taskDeleteSelf]

/-- resetConfig from examples/JP2Button/main.c lines 221-224: log and
spawn resetConfigTask on a fresh task. The spawned body is resetConfigTask
above; here only the spawn itself is an effect of the caller. -/
def resetConfig : List Effect :=
  [Effect.print "Resetting configuration", Effect.spawnResetTask]

/-- buttonCallback from examples/JP2Button/main.c lines 235-263, as a
function of the incoming event, the button channel bound at registration,
and the current value of the static uint8_t resetSequenceCount. Returns
the effects the callback performs, in program order; increments of the
uint8_t counter wrap modulo 256. -/
def buttonCallback (event : ButtonEvent) (channel : Nat) (count : Nat) :
    List Effect :=
  match event with
  | ButtonEvent.single_press =>
      [Effect.print "single press of on button", Effect.setCount 0,
       Effect.notify channel 0] ++ blinkIt 1 75
  | ButtonEvent.long_press =>
      [Effect.print "long press of on button", Effect.setCount 0,
       Effect.notify channel 1] ++ blinkIt 2 75
  | ButtonEvent.tripple_press =>
      [Effect.print "triple press of on button", Effect.setCount 0,
       Effect.notify channel 2] ++ blinkIt 3 75
  | ButtonEvent.double_press =>
      [Effect.print "double press of on button",
       Effect.setCount ((count + 1) % 256)] ++
      (if (count + 1) % 256 = ResetSequenceThreshold then resetConfig else [])
  | ButtonEvent.other code =>
      [Effect.setCount 0, Effect.print ("Unused button event: " ++ toString code)]

/-- Value of the static resetSequenceCount after a trace of effects has
run, starting from init: the last setCount write wins. -/
def countAfter (init : Nat) (tr : List Effect) : Nat :=
  tr.foldl (fun c e => match e with | Effect.setCount n => n | _ => c) init

/-- Process a sequence of (channel, gesture) events through buttonCallback,
threading the static counter; returns the final counter and the
concatenated effect trace. -/
def runGestures (count : Nat) : List (Nat × ButtonEvent) → Nat × List Effect
  | [] => (count, [])
  | g :: gs =>
      let tr := buttonCallback g.2 g.1 count
      let rest := runGestures (countAfter count tr) gs
      (rest.1, tr ++ rest.2)

/-- Number of ResetAction invocations (spawns of the reset task) in a
trace. -/
def resetCount (tr : List Effect) : Nat :=
  (tr.filter (fun e => decide (e = Effect.spawnResetTask))).length

/-- Number of indicator activations (LED writes to the on state) in a
trace. -/
def activations (tr : List Effect) : Nat :=
  (tr.filter (fun e => decide (e = Effect.setLED true))).length

/-- Whether an effect is an outward notification or indicator feedback
step (the per-gesture effects other than logging and counter writes). -/
def isOutput : Effect → Bool
  | Effect.notify _ _ => true
  | Effect.setLED _ => true
  | Effect.delay _ => true
  | _ => false

/-- Number of blocking delay calls a trace performs on the calling
context. -/
def inlineDelays (tr : List Effect) : Nat :=
  (tr.filter (fun e => match e with | Effect.delay _ => true | _ => false)).length

/-- State of the StationModeIndicator of examples/JP2Button/main.c lines
186-196: the static TaskHandle_t xHandle, the set of indicator task
instances currently running (identified by creation order, so that the
model can tell a live handle from a stale one), a counter supplying fresh
task identities, and the LED level. vTaskDelete on a handle whose task is
no longer running is undefined behavior in FreeRTOS; the model records
such a call as a delete effect tagged invalid. -/
structure IndicatorState where
  xHandle : Option Nat
  running : List Nat
  nextId : Nat
  ledOn : Bool
deriving DecidableEq, Repr

/-- Effects of the StationModeIndicator lifecycle calls. taskDelete
carries whether the deleted handle referred to a task that was still
running at the time of the call. -/
inductive IndEffect where
  | taskCreate (id : Nat)
  | taskDelete (id : Nat) (valid : Bool)
  | ledWrite (isOn : Bool)
deriving DecidableEq, Repr

/-- Indicator state at boot: xHandle is NULL, no task running, LED off. -/
def initialIndicator : IndicatorState :=
  { xHandle := none, running := [], nextId := 0, ledOn := false }

/-- indicateStationMode from examples/JP2Button/main.c lines 186-196.
With argument true it calls xTaskCreate, storing the new handle in the
static xHandle (the previous handle is overwritten; a previously running
task keeps running). With argument false it calls vTaskDelete on xHandle
when that is non-NULL (the handle is NOT cleared afterward), then turns
the LED off. -/
def indicateStationMode (isOn : Bool) (s : IndicatorState) :
    IndicatorState × List IndEffect :=
  if isOn then
    ({ xHandle := some s.nextId, running := s.nextId :: s.running,
       nextId := s.nextId + 1, ledOn := s.ledOn },
     [IndEffect.taskCreate s.nextId])
  else
    match s.xHandle with
    | some h =>
        ({ s with running := s.running.erase h, ledOn := false },
         [IndEffect.taskDelete h (decide (h ∈ s.running)), IndEffect.ledWrite false])
    | none => ({ s with ledOn := false }, [IndEffect.ledWrite false])

/-- Run a sequence of start (true) / stop (false) calls on the indicator,
accumulating the effects. -/
def indRun (s : IndicatorState) : List Bool → IndicatorState × List IndEffect
  | [] => (s, [])
  | c :: cs =>
      let p := indicateStationMode c s
      let q := indRun p.1 cs
      (q.1, p.2 ++ q.2)

/-- Number of vTaskDelete calls in a trace whose handle no longer named a
running task (each one is undefined behavior in FreeRTOS). -/
def invalidDeletes (tr : List IndEffect) : Nat :=
  (tr.filter (fun e =>
    match e with | IndEffect.taskDelete _ false => true | _ => false)).length

end JP2Button

namespace JPmbutton

/-- Effects of the LED utilities in examples/JPmbutton/utils.c: color
writes to the indicator and blocking delays. -/
inductive UEffect where
  | setLEDColor (color : Nat)
  | delay (ms : Nat)
deriving DecidableEq, Repr

/-- LED_BLACK color constant used by utils.c to turn the indicator off. -/
def LED_BLACK : Nat := 0x000000

/-- LED_WHITE color constant used by utils.c on a plain (non-NeoPixel)
LED. -/
def LED_WHITE : Nat := 0xffffff

/-- Loop body of blinkIt from examples/JPmbutton/utils.c lines 65-72,
indexed by the loop counter i and the remaining iteration count: each
iteration delays first unless it is the zeroth, lights the LED (at the
requested color on a NeoPixel, white otherwise), delays, and turns the
LED off. -/
def blinkLoop (isNeoPixel : Bool) (color d : Nat) : Nat → Nat → List UEffect
  | _, 0 => []
  | i, Nat.succ k =>
      ((if i = 0 then [] else [UEffect.delay d]) ++
       [UEffect.setLEDColor (if isNeoPixel then color else LED_WHITE),
        UEffect.delay d, UEffect.setLEDColor LED_BLACK]) ++
      blinkLoop isNeoPixel color d (i + 1) k

/-- blinkIt from examples/JPmbutton/utils.c lines 65-72: cycles
iterations of the loop body, starting at loop index 0. The uint8_t cycles
parameter is the loop bound. -/
def blinkIt (isNeoPixel : Bool) (color cycles d : Nat) : List UEffect :=
  blinkLoop isNeoPixel color d 0 cycles

/-- Number of indicator activations (color writes other than LED_BLACK)
in a utils.c trace. -/
def colorActivations (tr : List UEffect) : Nat :=
  (tr.filter (fun e =>
    match e with
    | UEffect.setLEDColor c => decide (c ≠ LED_BLACK)
    | _ => false)).length

end JPmbutton

namespace JP2Button

/-- The double-press branch of buttonCallback never reads the channel:
its trace is identical for any two channels. -/
theorem buttonCallback_double_channel (ch ch2 c : Nat) :
    buttonCallback ButtonEvent.double_press ch c =
      buttonCallback ButtonEvent.double_press ch2 c := rfl

/-- C1 counterexample: with threshold = 2, a run of threshold+1 = 3
consecutive DoublePress gestures from counter 0 does invoke ResetAction
exactly once, but the invocation already occurs within the first
threshold gestures, and the last gesture of the run (processed with the
counter already at the threshold) spawns no reset at all — refuting the
part of the claim that places the invocation on the last gesture. -/
theorem C1_counterexample :
    resetCount (runGestures 0
      (List.replicate (ResetSequenceThreshold + 1) (0, ButtonEvent.double_press))).2 = 1 ∧
    resetCount (runGestures 0
      (List.replicate ResetSequenceThreshold (0, ButtonEvent.double_press))).2 = 1 ∧
    resetCount (buttonCallback ButtonEvent.double_press 0 ResetSequenceThreshold) = 0 := by
  decide

/-- C1 (amended): a run of exactly threshold consecutive DoublePress
gestures from counter 0 invokes ResetAction exactly once, during the last
(threshold-th) gesture of that run and never earlier; extending the run
to threshold+1 gestures adds no further invocation. -/
theorem C1_reset_fires_on_threshold_press (ch : Nat) :
    resetCount (runGestures 0
      (List.replicate ResetSequenceThreshold (ch, ButtonEvent.double_press))).2 = 1 ∧
    resetCount (runGestures 0
      (List.replicate (ResetSequenceThreshold - 1) (ch, ButtonEvent.double_press))).2 = 0 ∧
    resetCount (buttonCallback ButtonEvent.double_press ch (ResetSequenceThreshold - 1)) = 1 ∧
    resetCount (runGestures 0
      (List.replicate (ResetSequenceThreshold + 1) (ch, ButtonEvent.double_press))).2 = 1 :=
  ⟨rfl, rfl, rfl, rfl⟩

/-- C2 counterexample: a run of n = threshold (which satisfies
n ≤ threshold) consecutive DoublePress gestures from counter 0 followed
by a SinglePress invokes ResetAction once, not zero times. -/
theorem C2_counterexample :
    resetCount (runGestures 0
      (List.replicate ResetSequenceThreshold (0, ButtonEvent.double_press) ++
        [(0, ButtonEvent.single_press)])).2 = 1 := by decide

/-- C2 (amended): a run of fewer than threshold consecutive DoublePress
gestures from counter 0 followed by any single non-DoublePress gesture
invokes ResetAction zero times. -/
theorem C2_short_run_no_reset (n ch : Nat) (g : ButtonEvent)
    (hn : n < ResetSequenceThreshold) (hg : g ≠ ButtonEvent.double_press) :
    resetCount (runGestures 0
      (List.replicate n (ch, ButtonEvent.double_press) ++ [(ch, g)])).2 = 0 := by
  have hn2 : n < 2 := hn
  interval_cases n <;> cases g <;> first | exact absurd rfl hg | rfl

/-- Witness for C2_short_run_no_reset at n = 1, channel 0, SinglePress. -/
theorem C2_short_run_no_reset_witness :
    1 < ResetSequenceThreshold ∧
    resetCount (runGestures 0
      (List.replicate 1 (0, ButtonEvent.double_press) ++
        [(0, ButtonEvent.single_press)])).2 = 0 :=
  ⟨by decide, C2_short_run_no_reset 1 0 ButtonEvent.single_press (by decide) (by decide)⟩

/-- C3 counterexample: the DoublePress branch performs no indicator
activation and no output effect at all (no blink, no notification), and
the Unrecognized branch likewise performs none — refuting both the
claimed 1-cycle DoublePress feedback and the claimed error feedback
pattern, at counter 0 on channel 0. -/
theorem C3_counterexample :
    activations (buttonCallback ButtonEvent.double_press 0 0) = 0 ∧
    (buttonCallback ButtonEvent.double_press 0 0).all (fun e => !isOutput e) = true ∧
    activations (buttonCallback (ButtonEvent.other 7) 0 0) = 0 ∧
    (buttonCallback (ButtonEvent.other 7) 0 0).all (fun e => !isOutput e) = true := by
  decide

/-- C3 (amended): only the SinglePress, LongPress and TriplePress
branches produce indicator feedback (1, 2 and 3 activations); the
DoublePress and Unrecognized branches produce no indicator activation,
for every channel and counter value. -/
theorem C3_feedback_per_branch (ch c k : Nat) :
    activations (buttonCallback ButtonEvent.single_press ch c) = 1 ∧
    activations (buttonCallback ButtonEvent.long_press ch c) = 2 ∧
    activations (buttonCallback ButtonEvent.tripple_press ch c) = 3 ∧
    activations (buttonCallback ButtonEvent.double_press ch c) = 0 ∧
    activations (buttonCallback (ButtonEvent.other k) ch c) = 0 := by
  refine ⟨rfl, rfl, rfl, ?_, rfl⟩
  by_cases h : (c + 1) % 256 = ResetSequenceThreshold <;>
    simp [buttonCallback, activations, resetConfig, h]

/-- C4 counterexample: handling a SinglePress performs two blocking delay
calls inline on the calling context (the blink pattern runs inside the
callback, not on a spawned task) — refuting the claim that the dispatcher
never performs a blocking delay. -/
theorem C4_counterexample :
    inlineDelays (buttonCallback ButtonEvent.single_press 0 0) = 2 := by decide

/-- C4 (amended): the SinglePress, LongPress and TriplePress branches
execute their blink patterns inline in the callback, blocking the calling
context with 2, 4 and 6 delay calls; only the DoublePress and
Unrecognized branches perform no inline delay (the reset action is the
one piece of work started on a separate task). -/
theorem C4_inline_blocking_per_branch (ch c k : Nat) :
    inlineDelays (buttonCallback ButtonEvent.single_press ch c) = 2 ∧
    inlineDelays (buttonCallback ButtonEvent.long_press ch c) = 4 ∧
    inlineDelays (buttonCallback ButtonEvent.tripple_press ch c) = 6 ∧
    inlineDelays (buttonCallback ButtonEvent.double_press ch c) = 0 ∧
    inlineDelays (buttonCallback (ButtonEvent.other k) ch c) = 0 := by
  refine ⟨rfl, rfl, rfl, ?_, rfl⟩
  by_cases h : (c + 1) % 256 = ResetSequenceThreshold <;>
    simp [buttonCallback, inlineDelays, resetConfig, h]

/-- C5 counterexample: two start calls with no intervening stop leave two
indicator task instances running simultaneously — refuting the claim that
at most one instance is ever running. -/
theorem C5_counterexample :
    ((indRun initialIndicator [true, true]).1.running).length = 2 := by decide

/-- C5 (amended): from any state, two consecutive start calls create two
new concurrent indicator task instances (neither a no-op nor a replace);
the static handle records only the newest, so a following stop deletes
only that one and the older instance keeps running. -/
theorem C5_double_start_leaks_task (s : IndicatorState) :
    ((indRun s [true, true]).1.running).length = s.running.length + 2 ∧
    (indRun s [true, true]).1.xHandle = some (s.nextId + 1) ∧
    ((indRun s [true, true, false]).1.running).length = s.running.length + 1 := by
  simp [indRun, indicateStationMode]

/-- C6 counterexample: after a start followed by a stop, the static
handle still holds the deleted task (it is never cleared), so a second
stop calls vTaskDelete on a handle whose task is no longer running — an
invalid delete (undefined behavior), refuting the claim that a repeated
stop has no effect and does not error. -/
theorem C6_counterexample :
    invalidDeletes (indRun initialIndicator [true, false, false]).2 = 1 ∧
    (indRun initialIndicator [true, false]).1.xHandle = some 0 := by decide

/-- C6 (amended): stop is an idempotent, error-free no-op only while the
stored handle is still NULL (no start ever made): from boot, stop twice
equals stop once with no invalid delete. After a start-stop pair the
stale handle makes a repeated stop issue an invalid vTaskDelete, although
the resulting modeled state equals that after a single stop. -/
theorem C6_stop_idempotent_only_when_never_started :
    (indRun initialIndicator [false, false]).1 = (indRun initialIndicator [false]).1 ∧
    invalidDeletes (indRun initialIndicator [false, false]).2 = 0 ∧
    (indRun initialIndicator [true, false, false]).1 =
      (indRun initialIndicator [true, false]).1 ∧
    invalidDeletes (indRun initialIndicator [true, false, false]).2 = 1 := by decide

/-- C7: every gesture other than DoublePress writes 0 to the
reset-sequence counter before any of its notification or feedback
effects (the trace splits as a prefix with no output effect, then the
counter write, then the rest), and leaves the counter at 0. -/
theorem C7_reset_before_gesture_effects (ch count : Nat) (e : ButtonEvent)
    (h : e ≠ ButtonEvent.double_press) :
    countAfter count (buttonCallback e ch count) = 0 ∧
    ∃ pre post, buttonCallback e ch count = pre ++ Effect.setCount 0 :: post ∧
      pre.all (fun x => !isOutput x) = true := by
  cases e with
  | single_press =>
      exact ⟨rfl, [Effect.print "single press of on button"], _, rfl, rfl⟩
  | double_press => exact absurd rfl h
  | long_press =>
      exact ⟨rfl, [Effect.print "long press of on button"], _, rfl, rfl⟩
  | tripple_press =>
      exact ⟨rfl, [Effect.print "triple press of on button"], _, rfl, rfl⟩
  | other code => exact ⟨rfl, [], _, rfl, rfl⟩

/-- Witness for C7_reset_before_gesture_effects at SinglePress on channel
0 with counter 9. -/
theorem C7_witness :
    ButtonEvent.single_press ≠ ButtonEvent.double_press ∧
    (countAfter 9 (buttonCallback ButtonEvent.single_press 0 9) = 0 ∧
     ∃ pre post, buttonCallback ButtonEvent.single_press 0 9 =
        pre ++ Effect.setCount 0 :: post ∧
      pre.all (fun x => !isOutput x) = true) :=
  ⟨by decide, C7_reset_before_gesture_effects 0 9 ButtonEvent.single_press (by decide)⟩

/-- C8: resetConfigTask performs, in order: the full 5-cycle about-to-
reset blink pattern (its first 20 effects are exactly blinkIt 5 100),
then exactly one wifi_config_reset, then exactly one
homekit_server_reset, then exactly one sdk_system_restart; the restart is
present unconditionally (the trace is a fixed straight-line sequence). -/
theorem C8_reset_action_order :
    resetConfigTask.take 20 = blinkIt 5 100 ∧
    (resetConfigTask.filter (fun e => decide (e = Effect.wifiConfigReset))).length = 1 ∧
    (resetConfigTask.filter (fun e => decide (e = Effect.homekitServerReset))).length = 1 ∧
    (resetConfigTask.filter (fun e => decide (e = Effect.systemRestart))).length = 1 ∧
    20 ≤ resetConfigTask.findIdx (fun e => decide (e = Effect.wifiConfigReset)) ∧
    resetConfigTask.findIdx (fun e => decide (e = Effect.wifiConfigReset)) <
      resetConfigTask.findIdx (fun e => decide (e = Effect.homekitServerReset)) ∧
    resetConfigTask.findIdx (fun e => decide (e = Effect.homekitServerReset)) <
      resetConfigTask.findIdx (fun e => decide (e = Effect.systemRestart)) := by decide

/-- C10: the reset-sequence counter is one shared static across all
button channels: processing any interleaving of DoublePress gestures is
channel-independent (same final counter and same trace as delivering them
all on channel 0), and in particular a DoublePress on one button followed
by a DoublePress on a different button reaches the shared threshold and
invokes ResetAction once. -/
theorem C10_shared_reset_counter (c : Nat) (chs : List Nat) (ch1 ch2 : Nat) :
    runGestures c (chs.map (fun ch => (ch, ButtonEvent.double_press))) =
      runGestures c (chs.map (fun _ => (0, ButtonEvent.double_press))) ∧
    resetCount (runGestures 0
      [(ch1, ButtonEvent.double_press), (ch2, ButtonEvent.double_press)]).2 = 1 := by
  constructor
  · induction chs generalizing c with
    | nil => rfl
    | cons ch rest ih =>
        simp only [List.map_cons, runGestures]
        rw [buttonCallback_double_channel ch 0 c, ih]
  · rfl

end JP2Button

/-- C9: running a feedback blink pattern with cycles = 0 produces the
empty effect trace (so zero indicator activations and immediate
termination), for every delay, color and LED kind, in both the
JP2Button blinkIt and the JPmbutton utils.c blinkIt. -/
theorem C9_zero_cycles_no_activation (d color : Nat) (isNeoPixel : Bool) :
    JP2Button.blinkIt 0 d = [] ∧
    JPmbutton.blinkIt isNeoPixel color 0 d = [] ∧
    JP2Button.activations (JP2Button.blinkIt 0 d) = 0 ∧
    JPmbutton.colorActivations (JPmbutton.blinkIt isNeoPixel color 0 d) = 0 :=
  ⟨rfl, rfl, rfl, rfl⟩
